import Mathlib

/-!
Shallow embedding of the `techmccat/riscv` crate (configuration: the
`clic-sifive` feature enabled, `target_pointer_width = "64"`).

Sources embedded:
- `src/register/mcause.rs` : the `Mcause` register, `Trap`, `Interrupt`,
  `Exception` and their decoders, plus the CLIC-mode fields `mpie`, `mpp`,
  `minhv`.
- `src/register/mtvec.rs`  : the `Mtvec` register, `TrapMode`, `address`,
  `trap_mode` and the `write` helper.
- `src/register/mtvt.rs`   : the `Mtvt` register.
- `src/peripheral/clic.rs` : the `InterruptNumber` contract and the
  `HartLocal` register block with its operations.
- `src/peripheral.rs`      : `CLIC::new` initialization.

Machine integers are modelled as `Nat`; `usize` is 64 bits wide, `u8` is a
byte.  A Rust function that can panic (`unreachable!()`) is modelled as
returning `Option`, with `none` for the panicking branch.  Memory-mapped
register blocks are modelled as explicit state records; a volatile write is a
state update, a volatile read is a state projection.
-/

namespace RiscvCrate

/-! ## `src/register/mcause.rs` -/

/-- Interrupt (mcause.rs): the cause tags for interrupts. -/
inductive Interrupt where
  | UserSoft
  | SupervisorSoft
  | MachineSoft
  | UserTimer
  | SupervisorTimer
  | MachineTimer
  | UserExternal
  | SupervisorExternal
  | MachineExternal
  | Unknown
deriving DecidableEq, Repr

/-- Exception (mcause.rs): the cause tags for exceptions. -/
inductive Exception where
  | InstructionMisaligned
  | InstructionFault
  | IllegalInstruction
  | Breakpoint
  | LoadMisaligned
  | LoadFault
  | StoreMisaligned
  | StoreFault
  | UserEnvCall
  | SupervisorEnvCall
  | MachineEnvCall
  | InstructionPageFault
  | LoadPageFault
  | StorePageFault
  | Unknown
deriving DecidableEq, Repr

/-- Trap (mcause.rs): tagged trap cause. -/
inductive Trap where
  | Interrupt (i : Interrupt)
  | Exception (e : Exception)
deriving DecidableEq, Repr

/-- Source `Interrupt::from(nr: usize)` (mcause.rs).  (`from` is a Lean keyword, so
the Lean name is `fromNr`.) -/
def Interrupt.fromNr (nr : Nat) : Interrupt :=
  match nr with
  | 0 => Interrupt.UserSoft
  | 1 => Interrupt.SupervisorSoft
  | 3 => Interrupt.MachineSoft
  | 4 => Interrupt.UserTimer
  | 5 => Interrupt.SupervisorTimer
  | 7 => Interrupt.MachineTimer
  | 8 => Interrupt.UserExternal
  | 9 => Interrupt.SupervisorExternal
  | 11 => Interrupt.MachineExternal
  | _ => Interrupt.Unknown

/-- Source `Exception::from(nr: usize)` (mcause.rs). -/
def Exception.fromNr (nr : Nat) : Exception :=
  match nr with
  | 0 => Exception.InstructionMisaligned
  | 1 => Exception.InstructionFault
  | 2 => Exception.IllegalInstruction
  | 3 => Exception.Breakpoint
  | 4 => Exception.LoadMisaligned
  | 5 => Exception.LoadFault
  | 6 => Exception.StoreMisaligned
  | 7 => Exception.StoreFault
  | 8 => Exception.UserEnvCall
  | 9 => Exception.SupervisorEnvCall
  | 11 => Exception.MachineEnvCall
  | 12 => Exception.InstructionPageFault
  | 13 => Exception.LoadPageFault
  | 15 => Exception.StorePageFault
  | _ => Exception.Unknown

/-- Source `MPP` (mstatus.rs): machine previous privilege mode, referenced by
`Mcause::mpp`. -/
inductive MPP where
  | User
  | Supervisor
  | Machine
deriving DecidableEq, Repr

/-- The mcause register: a raw `usize` (64-bit) word. -/
structure Mcause where
  bits : Nat
deriving DecidableEq, Repr

/-- Source `Mcause::code` (mcause.rs): `self.bits & !(1 << 63)` on a 64-bit target. -/
def Mcause.code (m : Mcause) : Nat :=
  m.bits &&& ((2 ^ 64 - 1) ^^^ (1 <<< 63))

/-- Source `Mcause::is_interrupt` (mcause.rs): `self.bits & (1 << 63) == 1 << 63`. -/
def Mcause.is_interrupt (m : Mcause) : Bool :=
  m.bits &&& (1 <<< 63) == 1 <<< 63

/-- Source `Mcause::is_exception` (mcause.rs). -/
def Mcause.is_exception (m : Mcause) : Bool :=
  !m.is_interrupt

/-- Source `Mcause::cause` (mcause.rs). -/
def Mcause.cause (m : Mcause) : Trap :=
  if m.is_interrupt then
    Trap.Interrupt (Interrupt.fromNr m.code)
  else
    Trap.Exception (Exception.fromNr m.code)

/-- Source `Mcause::mpie` (mcause.rs, `clic-sifive` only): `self.bits.get_bit(27)`. -/
def Mcause.mpie (m : Mcause) : Bool :=
  (m.bits >>> 27) &&& 1 == 1

/-- Source `Mcause::mpp` (mcause.rs, `clic-sifive` only):
`self.bits.get_bits(28..30)` dispatched over `0b00/0b01/0b11`, with an
`unreachable!()` panic on the remaining pattern `0b10`, modelled as `none`. -/
def Mcause.mpp (m : Mcause) : Option MPP :=
  match (m.bits >>> 28) &&& 0b11 with
  | 0b00 => some MPP.User
  | 0b01 => some MPP.Supervisor
  | 0b11 => some MPP.Machine
  | _ => none

/-- Source `Mcause::minhv` (mcause.rs, `clic-sifive` only): `self.bits.get_bit(30)`. -/
def Mcause.minhv (m : Mcause) : Bool :=
  (m.bits >>> 30) &&& 1 == 1

/-! ## `src/register/mtvec.rs` -/

/-- Source `TrapMode` (mtvec.rs), with the `clic-sifive` variants included. -/
inductive TrapMode where
  | Direct
  | Vectored
  | ClicDirect
  | ClicVectored
deriving DecidableEq, Repr

/-- The Rust discriminant of each `TrapMode` variant (`mode as usize`). -/
def TrapMode.toNat : TrapMode → Nat
  | TrapMode.Direct => 0
  | TrapMode.Vectored => 1
  | TrapMode.ClicDirect => 2
  | TrapMode.ClicVectored => 3

/-- The mtvec register: a raw `usize` (64-bit) word. -/
structure Mtvec where
  bits : Nat
deriving DecidableEq, Repr

/-- Source `Mtvec::address` (mtvec.rs): `self.bits - (self.bits & 0b11)`. -/
def Mtvec.address (m : Mtvec) : Nat :=
  m.bits - (m.bits &&& 0b11)

/-- Source `Mtvec::trap_mode` (mtvec.rs): low 2 bits; with `clic-sifive`, modes 2 and
3 also decode, collapsing onto `Direct`/`Vectored`. -/
def Mtvec.trap_mode (m : Mtvec) : Option TrapMode :=
  match m.bits &&& 0b11 with
  | 0 => some TrapMode.Direct
  | 1 => some TrapMode.Vectored
  | 2 => some TrapMode.Direct
  | 3 => some TrapMode.Vectored
  | _ => none

/-- Source `mtvec::write(addr, mode)` (mtvec.rs): `addr + mode as usize`, a `usize`
addition, written to the CSR; we model the written word. -/
def mtvecWrite (addr : Nat) (mode : TrapMode) : Mtvec :=
  { bits := (addr + mode.toNat) % 2 ^ 64 }

/-! ## `src/register/mtvt.rs` -/

/-- The mtvt register: a raw `usize` (64-bit) word. -/
structure Mtvt where
  bits : Nat
deriving DecidableEq, Repr

/-- Source `Mtvt::address` (mtvt.rs): `self.bits & !0b111111`. -/
def Mtvt.address (m : Mtvt) : Nat :=
  m.bits &&& ((2 ^ 64 - 1) ^^^ 0b111111)

/-- Source `mtvt::write(addr)` (mtvt.rs): `addr & !0b111111` written to the CSR. -/
def mtvtWrite (addr : Nat) : Mtvt :=
  { bits := addr &&& ((2 ^ 64 - 1) ^^^ 0b111111) }

/-! ## `src/peripheral/clic.rs` -/

/-- Default of `InterruptNumber::MAX_INTERRUPT_NUMBER` (clic.rs):
`const MAX_INTERRUPT_NUMBER: u16 = 256;`. -/
def MAX_INTERRUPT_NUMBER_default : Nat := 256

/-- The `InterruptNumber` trait (clic.rs): a platform-supplied identifier set.
`number` is `fn number(self) -> u16`; `try_from` is
`fn try_from(value: u16) -> Result<Self, u16>`, modelled as `Except Nat I`. -/
structure InterruptNumberImpl (I : Type) where
  MAX_INTERRUPT_NUMBER : Nat := MAX_INTERRUPT_NUMBER_default
  number : I → Nat
  tryFrom : Nat → Except Nat I

/-- The safety contract documented on `InterruptNumber` (clic.rs): each variant
has a distinct, stable number, all numbers are at most `MAX_INTERRUPT_NUMBER`,
and `try_from` inverts `number`, returning the rejected value back on failure. -/
structure LawfulInterruptNumber {I : Type} (impl : InterruptNumberImpl I) : Prop where
  number_le_max : ∀ x : I, impl.number x ≤ impl.MAX_INTERRUPT_NUMBER
  number_inj : ∀ x y : I, impl.number x = impl.number y → x = y
  tryFrom_number : ∀ x : I, impl.tryFrom (impl.number x) = Except.ok x
  tryFrom_sound : ∀ (v : Nat) (x : I), impl.tryFrom v = Except.ok x → impl.number x = v
  tryFrom_err : ∀ v : Nat, (∀ x : I, impl.number x ≠ v) → impl.tryFrom v = Except.error v

/-- The `HartLocal` register block (clic.rs): `interrupt_pending` at +0x000,
`interrupt_enabled` at +0x400, `interrupt_config` at +0x800 (each a byte array
indexed by interrupt number), and the one-byte `config` register at +0xC00.
Each array cell holds a `u8`. -/
structure HartLocal where
  interrupt_pending : Nat → Nat
  interrupt_enabled : Nat → Nat
  interrupt_config : Nat → Nat
  config : Nat

/-- Source `HartLocal::mask` (clic.rs): write `0u8` to the enable cell at offset
`interrupt.number()`. -/
def HartLocal.mask {I : Type} (s : HartLocal) (number : I → Nat) (interrupt : I) :
    HartLocal :=
  { s with interrupt_enabled :=
      fun i => if i = number interrupt then 0 else s.interrupt_enabled i }

/-- Source `HartLocal::unmask` (clic.rs): write `1u8` to the enable cell. -/
def HartLocal.unmask {I : Type} (s : HartLocal) (number : I → Nat) (interrupt : I) :
    HartLocal :=
  { s with interrupt_enabled :=
      fun i => if i = number interrupt then 1 else s.interrupt_enabled i }

/-- Source `HartLocal::is_enabled` (clic.rs): read the enable cell, compare `!= 0`. -/
def HartLocal.is_enabled {I : Type} (s : HartLocal) (number : I → Nat)
    (interrupt : I) : Bool :=
  s.interrupt_enabled (number interrupt) != 0

/-- Source `HartLocal::pend` (clic.rs): write `1u8` to the pending cell, but only when
`interrupt.number()` is 3 or 12; otherwise do nothing. -/
def HartLocal.pend {I : Type} (s : HartLocal) (number : I → Nat) (interrupt : I) :
    HartLocal :=
  match number interrupt with
  | 3 => { s with interrupt_pending :=
             fun i => if i = number interrupt then 1 else s.interrupt_pending i }
  | 12 => { s with interrupt_pending :=
             fun i => if i = number interrupt then 1 else s.interrupt_pending i }
  | _ => s

/-- Source `HartLocal::unpend` (clic.rs): write `0u8` to the pending cell, but only
when `interrupt.number()` is 3 or 12; otherwise do nothing. -/
def HartLocal.unpend {I : Type} (s : HartLocal) (number : I → Nat) (interrupt : I) :
    HartLocal :=
  match number interrupt with
  | 3 => { s with interrupt_pending :=
             fun i => if i = number interrupt then 0 else s.interrupt_pending i }
  | 12 => { s with interrupt_pending :=
             fun i => if i = number interrupt then 0 else s.interrupt_pending i }
  | _ => s

/-- Source `HartLocal::is_pending` (clic.rs): read the pending cell, compare `!= 0`. -/
def HartLocal.is_pending {I : Type} (s : HartLocal) (number : I → Nat)
    (interrupt : I) : Bool :=
  s.interrupt_pending (number interrupt) != 0

/-- Source `HartLocal::set_level` (clic.rs): write `(level & 0xf) << 4` to the config
cell at offset `interrupt.number()`. -/
def HartLocal.set_level {I : Type} (s : HartLocal) (number : I → Nat)
    (interrupt : I) (level : Nat) : HartLocal :=
  { s with interrupt_config :=
      fun i => if i = number interrupt then (level &&& 0xf) <<< 4
               else s.interrupt_config i }

/-- Source `HartLocal::get_level` (clic.rs): read the config cell, shift right by 4. -/
def HartLocal.get_level {I : Type} (s : HartLocal) (number : I → Nat)
    (interrupt : I) : Nat :=
  s.interrupt_config (number interrupt) >>> 4

/-! ## `src/peripheral.rs` and `src/peripheral/clint.rs` -/

/-- The shared CLINT `RegisterBlock` (clint.rs): `msip` (+0x0000, u32),
`mtimecmp` (+0x4000, u64), `mtime` (+0xBFF8, u64). -/
structure ClintBlock where
  msip : Nat
  mtimecmp : Nat
  mtime : Nat

/-- The hardware state a `CLIC<SHARED, HART>` handle reaches: the shared CLINT
block and the hart-local block. -/
structure ClicState where
  shared : ClintBlock
  hart : HartLocal

/-- Source `CLIC::<SHARED, HART>::new()` (peripheral.rs): its single side effect is
`(*Self::HART).clic_cfg.write(4 << 1)`, a plain write of `4 << 1` to the
hart-local global config register. -/
def CLIC.new (s : ClicState) : ClicState :=
  { s with hart := { s.hart with config := 4 <<< 1 } }

/-! ## Spec-side definitions (for refinement comparisons)

These definitions follow the specification's words, not the source; they exist
to be compared against the source-derived definitions above. -/

/-- Spec table: the baseline numeric-to-tag interrupt mapping as the spec
describes it — software/timer/external interrupts at privilege-scoped codes
0,1,3 (software), 4,5,7 (timer), 8,9,11 (external); every other code maps to
the unknown tag. -/
def specBaselineInterruptTable (nr : Nat) : Interrupt :=
  if nr = 0 then Interrupt.UserSoft
  else if nr = 1 then Interrupt.SupervisorSoft
  else if nr = 3 then Interrupt.MachineSoft
  else if nr = 4 then Interrupt.UserTimer
  else if nr = 5 then Interrupt.SupervisorTimer
  else if nr = 7 then Interrupt.MachineTimer
  else if nr = 8 then Interrupt.UserExternal
  else if nr = 9 then Interrupt.SupervisorExternal
  else if nr = 11 then Interrupt.MachineExternal
  else Interrupt.Unknown

/-- Spec table: the claimed extended-controller-mode interrupt mapping — flat
machine-only software/timer/external at codes 3, 7, 11; every other code
(including 0, 1, 4, 5, 8, 9) maps to the unknown tag. -/
def specClicModeInterruptTable (nr : Nat) : Interrupt :=
  if nr = 3 then Interrupt.MachineSoft
  else if nr = 7 then Interrupt.MachineTimer
  else if nr = 11 then Interrupt.MachineExternal
  else Interrupt.Unknown

/-- Spec table: the exception mapping shared by both claimed tables —
defined tags at codes 0-9, 11-13, 15; every other code maps to unknown. -/
def specExceptionTable (nr : Nat) : Exception :=
  if nr = 0 then Exception.InstructionMisaligned
  else if nr = 1 then Exception.InstructionFault
  else if nr = 2 then Exception.IllegalInstruction
  else if nr = 3 then Exception.Breakpoint
  else if nr = 4 then Exception.LoadMisaligned
  else if nr = 5 then Exception.LoadFault
  else if nr = 6 then Exception.StoreMisaligned
  else if nr = 7 then Exception.StoreFault
  else if nr = 8 then Exception.UserEnvCall
  else if nr = 9 then Exception.SupervisorEnvCall
  else if nr = 11 then Exception.MachineEnvCall
  else if nr = 12 then Exception.InstructionPageFault
  else if nr = 13 then Exception.LoadPageFault
  else if nr = 15 then Exception.StorePageFault
  else Exception.Unknown

/-! ## Concrete fixtures used by witnesses -/

/-- A hart-local register block with every cell zeroed. -/
def hart0 : HartLocal :=
  { interrupt_pending := fun _ => 0
    interrupt_enabled := fun _ => 0
    interrupt_config := fun _ => 0
    config := 0 }

/-- The identity numbering on raw interrupt codes, used as a concrete
`number` function in witnesses. -/
def natNumber : Nat → Nat := fun n => n

/-- A concrete single-source identifier set: one source value with number 3,
using the default `MAX_INTERRUPT_NUMBER`. -/
def UnitImpl : InterruptNumberImpl Unit where
  number := fun _ => 3
  tryFrom := fun v => if v = 3 then Except.ok () else Except.error v

/-! ## Theorems -/

/-- The concrete identifier set `UnitImpl` satisfies the documented
`InterruptNumber` safety contract. -/
theorem UnitImpl_lawful : LawfulInterruptNumber UnitImpl := by
  constructor
  · intro x
    show 3 ≤ 256
    decide
  · intro x y _
    rfl
  · intro x
    cases x
    rfl
  · intro v x h
    by_cases hv : v = 3
    · exact hv ▸ rfl
    · simp [UnitImpl, hv] at h
  · intro v h
    have hv : v ≠ 3 := fun he => h () (by simp [UnitImpl, he])
    simp [UnitImpl, hv]

/-- Helper: masking with `0b11` is reduction modulo 4. -/
theorem and_three_eq_mod (n : Nat) : n &&& 3 = n % 4 := by
  have h := Nat.and_pow_two_sub_one_eq_mod n 2
  norm_num at h
  exact h

/-- Helper: masking with `0xf` is reduction modulo 16. -/
theorem and_fifteen_eq_mod (n : Nat) : n &&& 15 = n % 16 := by
  have h := Nat.and_pow_two_sub_one_eq_mod n 4
  norm_num at h
  exact h

/-- C1, counterexample: the claim says the previous-privilege-mode bitfield
decode succeeds for all four bit patterns of bits 28-29, but on the raw cause
word `1 <<< 29` (pattern `0b10`) `Mcause::mpp` hits `unreachable!()` and
panics, modelled as `none`. -/
theorem C1_mpp_panics_counterexample : Mcause.mpp ⟨1 <<< 29⟩ = none := by decide

/-- C1, amended: trap-cause decoding via `cause` always returns a tagged value
for every raw cause word, but the previous-privilege-mode bitfield decode
`mpp` is total only on the three defined patterns `0b00`, `0b01`, `0b11` of
bits 28-29: it succeeds exactly when the pattern is not the reserved `0b10`,
on which it panics. -/
theorem C1_cause_total_mpp_partial :
    (∀ m : Mcause, Mcause.cause m = Trap.Interrupt (Interrupt.fromNr m.code) ∨
      Mcause.cause m = Trap.Exception (Exception.fromNr m.code)) ∧
    (∀ m : Mcause, (Mcause.mpp m).isSome ↔ (m.bits >>> 28) &&& 0b11 ≠ 0b10) := by
  constructor
  · intro m
    by_cases h : m.is_interrupt
    · left
      simp [Mcause.cause, h]
    · right
      simp [Mcause.cause, h]
  · intro m
    have h := and_three_eq_mod (m.bits >>> 28)
    have h4 : (m.bits >>> 28) % 4 < 4 := Nat.mod_lt _ (by norm_num)
    have hv : (m.bits >>> 28) &&& 3 = 0 ∨ (m.bits >>> 28) &&& 3 = 1 ∨
        (m.bits >>> 28) &&& 3 = 2 ∨ (m.bits >>> 28) &&& 3 = 3 := by omega
    rcases hv with hv | hv | hv | hv <;> (unfold Mcause.mpp; rw [hv]) <;> decide

/-- C2, counterexample: the claim says that in the extended-controller
configuration the interrupt table is flat machine-only (codes 0, 1, 4, 5, 8, 9
map to the unknown tag).  The source has a single, configuration-independent
`Interrupt::from`: even in the `clic-sifive` build modelled here, decoding the
interrupt cause word with code 0 yields `UserSoft`, not `Unknown`, differing
from the claimed extended table at code 0. -/
theorem C2_no_extended_table_counterexample :
    Mcause.cause ⟨1 <<< 63⟩ = Trap.Interrupt Interrupt.UserSoft ∧
    specClicModeInterruptTable 0 = Interrupt.Unknown ∧
    Interrupt.fromNr 0 ≠ specClicModeInterruptTable 0 := by decide

/-- C2, amended: there is exactly one total numeric-to-tag cause-mapping
table, used regardless of configuration: interrupts at privilege-scoped codes
0,1,3,4,5,7,8,9,11, exceptions at codes 0-9, 11-13, 15, and every other code
maps to the explicit unknown tag; `cause` always dispatches through these two
tables. -/
theorem C2_single_cause_table :
    (∀ nr : Nat, Interrupt.fromNr nr = specBaselineInterruptTable nr) ∧
    (∀ nr : Nat, Exception.fromNr nr = specExceptionTable nr) ∧
    (∀ m : Mcause, Mcause.cause m = Trap.Interrupt (specBaselineInterruptTable m.code) ∨
      Mcause.cause m = Trap.Exception (specExceptionTable m.code)) := by
  have hi : ∀ nr : Nat, Interrupt.fromNr nr = specBaselineInterruptTable nr := by
    intro nr
    match nr with
    | 0 => rfl
    | 1 => rfl
    | 2 => rfl
    | 3 => rfl
    | 4 => rfl
    | 5 => rfl
    | 6 => rfl
    | 7 => rfl
    | 8 => rfl
    | 9 => rfl
    | 10 => rfl
    | 11 => rfl
    | n + 12 => rfl
  have he : ∀ nr : Nat, Exception.fromNr nr = specExceptionTable nr := by
    intro nr
    match nr with
    | 0 => rfl
    | 1 => rfl
    | 2 => rfl
    | 3 => rfl
    | 4 => rfl
    | 5 => rfl
    | 6 => rfl
    | 7 => rfl
    | 8 => rfl
    | 9 => rfl
    | 10 => rfl
    | 11 => rfl
    | 12 => rfl
    | 13 => rfl
    | 14 => rfl
    | 15 => rfl
    | n + 16 => rfl
  refine ⟨hi, he, ?_⟩
  intro m
  by_cases h : m.is_interrupt
  · left
    simp [Mcause.cause, h, hi]
  · right
    simp [Mcause.cause, h, he]

/-- C3, counterexample: the claim says the identifier conversion is the only
operation in the core that can fail, but `Mcause::mpp` panics on the raw cause
word `(1 <<< 29) + 5` (bits 28-29 = `0b10`), modelled as `none`. -/
theorem C3_mpp_fallible_counterexample : Mcause.mpp ⟨(1 <<< 29) + 5⟩ = none := by
  decide

/-- C3, amended: decoding the trap-vector mode from the low 2 bits returns a
value for every possible input (with modes 2 and 3 collapsing onto the
`Direct`/`Vectored` tags), but identifier `try_from` is not the only fallible
operation in the core: `Mcause::mpp` can also fail (it panics on the reserved
bit pattern `0b10`). -/
theorem C3_trap_mode_total_mpp_fallible :
    (∀ m : Mtvec, (Mtvec.trap_mode m).isSome = true) ∧
    (∀ m : Mtvec, m.bits &&& 0b11 = 2 → Mtvec.trap_mode m = some TrapMode.Direct) ∧
    (∀ m : Mtvec, m.bits &&& 0b11 = 3 → Mtvec.trap_mode m = some TrapMode.Vectored) ∧
    (∃ m : Mcause, Mcause.mpp m = none) := by
  refine ⟨?_, ?_, ?_, ⟨⟨1 <<< 29⟩, by decide⟩⟩
  · intro m
    have h := and_three_eq_mod m.bits
    have h4 : m.bits % 4 < 4 := Nat.mod_lt _ (by norm_num)
    have hv : m.bits &&& 3 = 0 ∨ m.bits &&& 3 = 1 ∨ m.bits &&& 3 = 2 ∨
        m.bits &&& 3 = 3 := by omega
    rcases hv with hv | hv | hv | hv <;> simp [Mtvec.trap_mode, hv]
  · intro m h
    unfold Mtvec.trap_mode
    rw [h]
  · intro m h
    unfold Mtvec.trap_mode
    rw [h]

/-- C3, witness for the amended theorem at concrete inputs: the mtvec word 6
(low bits `0b10`) decodes to `Direct`, and the word 7 (low bits `0b11`)
decodes to `Vectored`. -/
theorem C3_trap_mode_total_mpp_fallible_witness :
    (Mtvec.trap_mode ⟨6⟩).isSome = true ∧
    Mtvec.trap_mode ⟨6⟩ = some TrapMode.Direct ∧
    Mtvec.trap_mode ⟨7⟩ = some TrapMode.Vectored :=
  ⟨C3_trap_mode_total_mpp_fallible.1 ⟨6⟩,
   C3_trap_mode_total_mpp_fallible.2.1 ⟨6⟩ (by decide),
   C3_trap_mode_total_mpp_fallible.2.2.1 ⟨7⟩ (by decide)⟩

/-- C4, counterexample: the claim says the default maximum interrupt
identifier code is 255, but the source declares
`const MAX_INTERRUPT_NUMBER: u16 = 256`. -/
theorem C4_default_max_counterexample :
    MAX_INTERRUPT_NUMBER_default = 256 ∧ MAX_INTERRUPT_NUMBER_default ≠ 255 := by
  decide

/-- C4, amended: the default maximum interrupt-identifier code is 256, and for
every identifier set satisfying the documented `InterruptNumber` contract,
`try_from(code)` fails for any code greater than its maximum, returning the
rejected code back. -/
theorem C4_max_256_tryFrom_fails {I : Type} (impl : InterruptNumberImpl I)
    (hl : LawfulInterruptNumber impl) (v : Nat)
    (hv : impl.MAX_INTERRUPT_NUMBER < v) :
    MAX_INTERRUPT_NUMBER_default = 256 ∧ impl.tryFrom v = Except.error v := by
  refine ⟨rfl, ?_⟩
  apply hl.tryFrom_err
  intro x hx
  have := hl.number_le_max x
  omega

/-- C4, witness: applying the amended theorem to the concrete identifier set
`UnitImpl` (default maximum 256) at the rejected code 300. -/
theorem C4_max_256_tryFrom_fails_witness :
    MAX_INTERRUPT_NUMBER_default = 256 ∧ UnitImpl.tryFrom 300 = Except.error 300 :=
  C4_max_256_tryFrom_fails UnitImpl UnitImpl_lawful 300 (by decide)

/-- C5 (confirmed): for an identifier whose code is 3 or 12, `pend` writes 1
and `unpend` writes 0 to that code's cell of the pending region (so
`is_pending` becomes true resp. false); for any other code both calls leave
the whole state unchanged, and in particular `pend` on a non-pendable code
leaves `is_pending` false when it was false before. -/
theorem C5_pend_unpend_frame {I : Type} (number : I → Nat) (interrupt : I)
    (s : HartLocal) :
    (number interrupt = 3 ∨ number interrupt = 12 →
      (s.pend number interrupt).interrupt_pending (number interrupt) = 1 ∧
      (s.unpend number interrupt).interrupt_pending (number interrupt) = 0 ∧
      (s.pend number interrupt).is_pending number interrupt = true ∧
      (s.unpend number interrupt).is_pending number interrupt = false) ∧
    (number interrupt ≠ 3 ∧ number interrupt ≠ 12 →
      s.pend number interrupt = s ∧ s.unpend number interrupt = s ∧
      (s.is_pending number interrupt = false →
        (s.pend number interrupt).is_pending number interrupt = false)) := by
  constructor
  · intro h
    rcases h with h | h <;>
      simp [HartLocal.pend, HartLocal.unpend, HartLocal.is_pending, h]
  · intro h
    obtain ⟨h3, h12⟩ := h
    have hp : s.pend number interrupt = s := by
      unfold HartLocal.pend
      split
      · exact absurd (by assumption) h3
      · exact absurd (by assumption) h12
      · rfl
    have hu : s.unpend number interrupt = s := by
      unfold HartLocal.unpend
      split
      · exact absurd (by assumption) h3
      · exact absurd (by assumption) h12
      · rfl
    exact ⟨hp, hu, fun hf => by rw [hp]; exact hf⟩

/-- C5, witness at concrete inputs: pending code 3 on the all-zero block makes
it pending; pending code 5 is a no-op and leaves `is_pending` false. -/
theorem C5_pend_unpend_frame_witness :
    (hart0.pend natNumber 3).is_pending natNumber 3 = true ∧
    hart0.pend natNumber 5 = hart0 ∧
    (hart0.pend natNumber 5).is_pending natNumber 5 = false :=
  ⟨((C5_pend_unpend_frame natNumber 3 hart0).1 (Or.inl rfl)).2.2.1,
   ((C5_pend_unpend_frame natNumber 5 hart0).2 ⟨by decide, by decide⟩).1,
   ((C5_pend_unpend_frame natNumber 5 hart0).2 ⟨by decide, by decide⟩).2.2
     (by decide)⟩

/-- C6 (confirmed): for every identifier and every 8-bit level, `set_level`
followed by `get_level` returns `level &&& 0xf` — levels above 15 are masked,
not rejected. -/
theorem C6_set_level_get_level {I : Type} (number : I → Nat) (interrupt : I)
    (s : HartLocal) (level : Nat) (hlevel : level < 256) :
    (s.set_level number interrupt level).get_level number interrupt =
      level &&& 0xf := by
  unfold HartLocal.set_level HartLocal.get_level
  simp [Nat.shiftLeft_shiftRight]

/-- C6, witness at the spec's concrete input: `set_level` with 20 then
`get_level` yields `20 &&& 0xf`, which is 4. -/
theorem C6_set_level_get_level_witness :
    (20 : Nat) < 256 ∧
    (hart0.set_level natNumber 7 20).get_level natNumber 7 = 20 &&& 0xf ∧
    (20 : Nat) &&& 0xf = 4 :=
  ⟨by decide, C6_set_level_get_level natNumber 7 hart0 20 (by decide), by decide⟩

/-- C7 (confirmed): for every identifier, `mask` then `is_enabled` is false,
`unmask` then `is_enabled` is true, and `mask` is idempotent. -/
theorem C7_mask_unmask_enabled {I : Type} (number : I → Nat) (interrupt : I)
    (s : HartLocal) :
    (s.mask number interrupt).is_enabled number interrupt = false ∧
    (s.unmask number interrupt).is_enabled number interrupt = true ∧
    (s.mask number interrupt).mask number interrupt = s.mask number interrupt := by
  refine ⟨?_, ?_, ?_⟩
  · simp [HartLocal.mask, HartLocal.is_enabled]
  · simp [HartLocal.unmask, HartLocal.is_enabled]
  · unfold HartLocal.mask
    congr 1
    funext i
    by_cases h : i = number interrupt <;> simp [h]

/-- C8 (confirmed): constructing a hart-local controller handle performs
exactly one side effect — a pure write of `4 <<< 1` into the global config
register, regardless of its prior contents — and touches no other register:
the pending, enable and config arrays and the whole shared block are
unchanged. -/
theorem C8_clic_new_effect (s : ClicState) :
    (CLIC.new s).hart.config = 4 <<< 1 ∧
    (CLIC.new s).hart.interrupt_pending = s.hart.interrupt_pending ∧
    (CLIC.new s).hart.interrupt_enabled = s.hart.interrupt_enabled ∧
    (CLIC.new s).hart.interrupt_config = s.hart.interrupt_config ∧
    (CLIC.new s).shared = s.shared :=
  ⟨rfl, rfl, rfl, rfl, rfl⟩

/-- C9 (confirmed): for every 4-byte-aligned address below `2 ^ 64` and every
mode in `{Direct, Vectored}`, writing `(address, mode)` to the trap-vector
register and reading back recovers both the address and the mode. -/
theorem C9_mtvec_roundtrip (addr : Nat) (mode : TrapMode)
    (haddr : addr < 2 ^ 64) (halign : addr &&& 0b11 = 0)
    (hmode : mode = TrapMode.Direct ∨ mode = TrapMode.Vectored) :
    (mtvecWrite addr mode).address = addr ∧
    (mtvecWrite addr mode).trap_mode = some mode := by
  have hmod4 : addr % 4 = 0 := by
    have h := and_three_eq_mod addr
    omega
  rcases hmode with hm | hm <;> subst hm
  · have hbits : (mtvecWrite addr TrapMode.Direct).bits = addr := by
      unfold mtvecWrite
      show (addr + TrapMode.toNat TrapMode.Direct) % 2 ^ 64 = addr
      show (addr + 0) % 2 ^ 64 = addr
      omega
    constructor
    · unfold Mtvec.address
      rw [hbits, halign]
      omega
    · unfold Mtvec.trap_mode
      rw [hbits, halign]
  · have hbits : (mtvecWrite addr TrapMode.Vectored).bits = addr + 1 := by
      unfold mtvecWrite
      show (addr + TrapMode.toNat TrapMode.Vectored) % 2 ^ 64 = addr + 1
      show (addr + 1) % 2 ^ 64 = addr + 1
      omega
    have hand : (addr + 1) &&& 3 = 1 := by
      rw [and_three_eq_mod]
      omega
    constructor
    · unfold Mtvec.address
      rw [hbits, hand]
      omega
    · unfold Mtvec.trap_mode
      rw [hbits, hand]

/-- C9, witness at the spec's concrete input: writing `(0x2000, Vectored)`
then reading back gives address `0x2000` and mode `Vectored`. -/
theorem C9_mtvec_roundtrip_witness :
    (mtvecWrite 0x2000 TrapMode.Vectored).address = 0x2000 ∧
    (mtvecWrite 0x2000 TrapMode.Vectored).trap_mode = some TrapMode.Vectored :=
  C9_mtvec_roundtrip 0x2000 TrapMode.Vectored (by norm_num) (by decide)
    (Or.inr rfl)

/-- C10 (confirmed): `set_level` overwrites the identifier's entire config
byte with exactly `(level &&& 0xf) <<< 4` — the low 4 bits of that byte end up
zero, not preserved — while every other config cell and every other region is
untouched. -/
theorem C10_set_level_pure_write {I : Type} (number : I → Nat) (interrupt : I)
    (s : HartLocal) (level : Nat) :
    (s.set_level number interrupt level).interrupt_config (number interrupt) =
      (level &&& 0xf) <<< 4 ∧
    ((s.set_level number interrupt level).interrupt_config (number interrupt))
      &&& 0xf = 0 ∧
    (∀ i, i ≠ number interrupt →
      (s.set_level number interrupt level).interrupt_config i =
        s.interrupt_config i) ∧
    (s.set_level number interrupt level).interrupt_pending =
      s.interrupt_pending ∧
    (s.set_level number interrupt level).interrupt_enabled =
      s.interrupt_enabled ∧
    (s.set_level number interrupt level).config = s.config := by
  refine ⟨by simp [HartLocal.set_level], ?_, ?_, rfl, rfl, rfl⟩
  · simp only [HartLocal.set_level]
    simp
    rw [Nat.shiftLeft_eq, and_fifteen_eq_mod]
    omega
  · intro i hi
    simp [HartLocal.set_level, hi]

/-- C10, witness at concrete inputs: setting level 0xAB on code 3 of the
all-zero block stores `(0xAB &&& 0xf) <<< 4` in cell 3, and cell 5 is
untouched. -/
theorem C10_set_level_pure_write_witness :
    (hart0.set_level natNumber 3 0xAB).interrupt_config 3 =
      (0xAB &&& 0xf) <<< 4 ∧
    (hart0.set_level natNumber 3 0xAB).interrupt_config 5 =
      hart0.interrupt_config 5 :=
  ⟨(C10_set_level_pure_write natNumber 3 hart0 0xAB).1,
   (C10_set_level_pure_write natNumber 3 hart0 0xAB).2.2.1 5 (by decide)⟩

end RiscvCrate
